import Mathlib

/-!
Verification development for the asynchronous task orchestration and lifecycle
subsystem of the study4me backend.

Embedded source files:
- `src/backend/main.py` : the `TASK_STATUS` in-memory registry, the route
  handlers (`upload_documents`, `process_webpage`, `process_youtube_video`,
  `interpret_image`, `query_rag_async`) with their `process_with_tracking`
  wrappers, `get_task_status_combined`, `broadcast_to_websockets`, and the
  `lifespan` shutdown sequence.
- `src/backend/utils/utils_async.py` : the units of work
  (`process_uploaded_documents`, `process_webpage_background`,
  `process_image_background`, `process_query_background`,
  `process_youtube_background`).
- `src/backend/utils/db_async.py` : `save_task_result` / `fetch_task_result`
  over the `task_result` table.
- `src/backend/utils/utils_ws.py` : `notify_callback`.

Embedding conventions:
- Python dicts keyed by task id become association lists with
  insert-or-replace update (`dictSet`) and `List.lookup`.
- A unit of work is a pure function from an explicit description of the
  collaborator behaviour it observes (conversion results, LightRAG/OpenAI
  call outcomes, topic lookups) to the triple
  (control outcome, `save_task_result` calls, webhook callback payloads).
  `Outcome.raise e` models the Python function terminating by raising `e`;
  `Outcome.ok` models a normal return.
- Wall-clock durations are abstracted to natural time-units; the claims only
  compare durations for presence and equality, never arithmetic on floats.
- `asyncio.CancelledError` derives from `BaseException`, so a Python
  `except Exception` clause does not catch it; `Exc.cancelled` is therefore
  re-raised everywhere the source re-raises it and is never converted to a
  terminal status by `process_with_tracking`.
-/

namespace Study4Me

/-- Task lifecycle status values stored in the in-memory `TASK_STATUS` map
(`main.py:38`): `"processing" | "done" | "failed"`. -/
inductive Status
  | processing
  | done
  | failed
deriving DecidableEq, Repr

/-- Exceptions a unit of work can terminate with: the typed OpenAI
collaborator errors (`AuthenticationError`, `RateLimitError`, `APIError`),
the catch-all for any other `Exception`, and `asyncio.CancelledError`. -/
inductive Exc
  | authError (msg : String)
  | rateLimit (msg : String)
  | apiError (msg : String)
  | unexpected (msg : String)
  | cancelled
deriving DecidableEq, Repr

/-- The typed collaborator failures of the spec's error taxonomy:
authentication, rate-limit and API errors from the LLM provider. -/
def Exc.isTyped : Exc → Bool
  | .authError _ => true
  | .rateLimit _ => true
  | .apiError _ => true
  | .unexpected _ => false
  | .cancelled => false

/-- Result of running a fallible piece of code: normal return with a value,
or termination by a raised exception. -/
inductive Outcome (α : Type)
  | ok (a : α)
  | raise (e : Exc)
deriving DecidableEq, Repr

/-- One row of the durable `task_result` table
(`db_async.py:13-21`): status, result payload, processing time. -/
structure TaskResultRow where
  status : String
  result : String
  processing_time : Nat
deriving DecidableEq, Repr

/-- The parts of a webhook callback payload the claims are about: the
`status` field, the optional `error` description, the optional
`error_type` tag and the optional reported processing time. -/
structure CallbackPayload where
  status : String
  error : Option String
  error_type : Option String
  processing_time_seconds : Option Nat
deriving DecidableEq, Repr

/-- A study topic as returned by `get_study_topic`: its name and the
`use_knowledge_graph` flag that selects the processing branch. -/
structure Topic where
  name : String
  use_knowledge_graph : Bool
deriving DecidableEq, Repr

/-- Insert-or-replace update of an association list, the embedding of
`d[k] = v` on a Python dict. -/
def dictSet (m : List (String × α)) (k : String) (v : α) : List (String × α) :=
  (k, v) :: m.filter (fun p => !(p.1 == k))

/-- Replay a list of status writes onto the in-memory registry. -/
def applyWrites (mem : List (String × Status)) (ws : List (String × Status)) :
    List (String × Status) :=
  ws.foldl (fun acc kv => dictSet acc kv.1 kv.2) mem

/-- The error message each typed handler formats
(`utils_async.py:202-242`, `:723-783`). -/
def excErrorMsg : Exc → String
  | .authError m => "OpenAI authentication failed: " ++ m
  | .rateLimit m => "OpenAI rate limit exceeded: " ++ m
  | .apiError m => "OpenAI API error: " ++ m
  | .unexpected m => m
  | .cancelled => "cancelled"

/-- The `error_type` tag each typed handler attaches to its callback
payload (`utils_async.py:202-242`, `:723-783`). -/
def excErrorType : Exc → String
  | .authError _ => "authentication"
  | .rateLimit _ => "rate_limit"
  | .apiError _ => "api_error"
  | _ => "unexpected"

/-- Callback payload for a successful ingestion
(`utils_async.py:193-200` and the analogous success callbacks). -/
def successPayload (t : Nat) : CallbackPayload :=
  { status := "success", error := none, error_type := none
    processing_time_seconds := some t }

/-- Callback payload for a caught ingestion error
(`utils_async.py:206-242` and analogous handlers). -/
def errorPayload (e : Exc) : CallbackPayload :=
  { status := "error", error := some (excErrorMsg e)
    error_type := some (excErrorType e), processing_time_seconds := none }

/-- Emit a callback only when the request supplied a `callback_url`. -/
def optCb (callback_url : Option String) (p : CallbackPayload) :
    List CallbackPayload :=
  match callback_url with
  | some _ => [p]
  | none => []

/-- Embedding of `process_uploaded_documents` (`utils_async.py:114-242`).

Each file is described by its name and the outcome of its processing body
(docling conversion, LightRAG insert, content-item save): `Outcome.ok t`
when the body completes in `t` time-units, `Outcome.raise e` when it raises
`e`.  The source checks the shutdown event before each file and returns
early; it catches `AuthenticationError`, `RateLimitError`, `APIError` and
`Exception` per file, sends an error callback, and continues with the next
file without re-raising.  `asyncio.CancelledError` is re-raised
(`utils_async.py:140-144`).  The function makes no `save_task_result`
call, so its durable-write component is always empty. -/
def process_uploaded_documents (shutdown : Bool) (callback_url : Option String) :
    List (String × Outcome Nat) →
    Outcome Unit × List (String × TaskResultRow) × List CallbackPayload
  | [] => (.ok (), [], [])
  | (_, r) :: rest =>
    if shutdown then (.ok (), [], [])
    else
      match r with
      | .ok t =>
        let tail := process_uploaded_documents shutdown callback_url rest
        (tail.1, tail.2.1, optCb callback_url (successPayload t) ++ tail.2.2)
      | .raise .cancelled => (.raise .cancelled, [], [])
      | .raise e =>
        let tail := process_uploaded_documents shutdown callback_url rest
        (tail.1, tail.2.1, optCb callback_url (errorPayload e) ++ tail.2.2)

/-- Embedding of `process_webpage_background` (`utils_async.py:402-528`).

`body` is the outcome of the conversion/insert/persist body for the single
URL.  Typed and unexpected errors are caught, reported through the
callback, and the function returns normally; `CancelledError` is
re-raised; no `save_task_result` call is made. -/
def process_webpage_background (shutdown : Bool) (callback_url : Option String)
    (body : Outcome Nat) :
    Outcome Unit × List (String × TaskResultRow) × List CallbackPayload :=
  if shutdown then (.ok (), [], [])
  else
    match body with
    | .ok t => (.ok (), [], optCb callback_url (successPayload t))
    | .raise .cancelled => (.raise .cancelled, [], [])
    | .raise e => (.ok (), [], optCb callback_url (errorPayload e))

/-- Embedding of `process_image_background` (`utils_async.py:244-400`).

Structurally identical to the webpage unit for the aspects the claims are
about: errors are caught and reported via callback without re-raising,
`CancelledError` propagates, and no durable task-result write happens. -/
def process_image_background (shutdown : Bool) (callback_url : Option String)
    (body : Outcome Nat) :
    Outcome Unit × List (String × TaskResultRow) × List CallbackPayload :=
  if shutdown then (.ok (), [], [])
  else
    match body with
    | .ok t => (.ok (), [], optCb callback_url (successPayload t))
    | .raise .cancelled => (.raise .cancelled, [], [])
    | .raise e => (.ok (), [], optCb callback_url (errorPayload e))

/-- Abstraction of `json.dumps(enhanced_result)` (`utils_async.py:670-680`):
the serialized success payload as a function of the query answer. -/
def enhanced_result_json (ans : String) : String :=
  "enhanced_result:" ++ ans

/-- Abstraction of `json.dumps(result_data)` for the YouTube unit
(`utils_async.py:907-917`). -/
def youtube_result_json (transcript : String) : String :=
  "youtube_result:" ++ transcript

/-- Embedding of `process_query_background` (`utils_async.py:530-783`).

Inputs describe collaborator behaviour: `study_topic_id` as supplied,
`topic` the `get_study_topic` lookup result, `ragAvailable` whether
`get_topic_rag` produced an instance, `hasContent` whether the non-graph
branch found nonempty combined content, `queryOutcome` the LightRAG /
ChatGPT call result, and `t` the elapsed processing time.

Branches, in source order: the shutdown early-return; the four early
validation failures that call `save_task_result(task_id, "failed", ...)`
and then return normally (they do NOT raise); the success path saving
`"done"`; and the typed/unexpected exception handlers that save
`"failed"` and re-raise.  `CancelledError` propagates with no save. -/
def process_query_background (shutdown : Bool) (task_id : String)
    (callback_url : Option String) (study_topic_id : Option String)
    (topic : Option Topic) (ragAvailable : Bool) (hasContent : Bool)
    (queryOutcome : Outcome String) (t : Nat) :
    Outcome Unit × List (String × TaskResultRow) × List CallbackPayload :=
  if shutdown then (.ok (), [], [])
  else
    match study_topic_id with
    | none =>
      let msg := "Study topic ID is required"
      (.ok (), [(task_id, ⟨"failed", msg, 0⟩)],
       optCb callback_url ⟨"failed", some msg, some "missing_parameter", some 0⟩)
    | some tid =>
      match topic with
      | none =>
        let msg := "Study topic with ID '" ++ tid ++ "' not found"
        (.ok (), [(task_id, ⟨"failed", msg, 0⟩)],
         optCb callback_url ⟨"failed", some msg, some "topic_not_found", some 0⟩)
      | some tp =>
        if tp.use_knowledge_graph && !ragAvailable then
          let msg := "Failed to initialize LightRAG for topic '" ++ tp.name ++ "'"
          (.ok (), [(task_id, ⟨"failed", msg, t⟩)],
           optCb callback_url ⟨"failed", some msg, some "rag_initialization", some t⟩)
        else if !tp.use_knowledge_graph && !hasContent then
          let msg := "No content available for topic '" ++ tp.name ++
            "'. Please upload content first."
          (.ok (), [(task_id, ⟨"failed", msg, t⟩)],
           optCb callback_url ⟨"failed", some msg, some "no_content", some t⟩)
        else
          match queryOutcome with
          | .ok ans =>
            (.ok (), [(task_id, ⟨"done", enhanced_result_json ans, t⟩)],
             optCb callback_url ⟨"done", none, none, some t⟩)
          | .raise .cancelled => (.raise .cancelled, [], [])
          | .raise e =>
            (.raise e, [(task_id, ⟨"failed", excErrorMsg e, t⟩)],
             optCb callback_url
               ⟨"failed", some (excErrorMsg e), some (excErrorType e), some t⟩)

/-- Embedding of `process_youtube_background` (`utils_async.py:785-1021`).

`transcript` is the transcript-extraction outcome; any exception there is
wrapped as a generic `Exception("YouTube transcript extraction failed: ...")`
(`utils_async.py:846-848`) which the outer catch-all handles: it saves a
`"failed"` row and re-raises.  `insertion` is the LightRAG/persist outcome;
typed errors there save `"failed"` with their tag and re-raise.  Success
saves a `"done"` row.  `CancelledError` propagates with no save. -/
def process_youtube_background (shutdown : Bool) (task_id : String)
    (callback_url : Option String) (transcript : Outcome String)
    (insertion : Outcome Unit) (t : Nat) :
    Outcome Unit × List (String × TaskResultRow) × List CallbackPayload :=
  if shutdown then (.ok (), [], [])
  else
    match transcript with
    | .raise .cancelled => (.raise .cancelled, [], [])
    | .raise e =>
      let msg := "YouTube transcript extraction failed: " ++ excErrorMsg e
      (.raise (.unexpected msg), [(task_id, ⟨"failed", msg, t⟩)],
       optCb callback_url ⟨"error", some msg, some "unexpected", some t⟩)
    | .ok txt =>
      match insertion with
      | .raise .cancelled => (.raise .cancelled, [], [])
      | .raise e =>
        (.raise e, [(task_id, ⟨"failed", excErrorMsg e, t⟩)],
         optCb callback_url
           ⟨"error", some (excErrorMsg e), some (excErrorType e), some t⟩)
      | .ok _ =>
        ((.ok ()), [(task_id, ⟨"done", youtube_result_json txt, t⟩)],
         optCb callback_url ⟨"success", none, none, some t⟩)

/-- Embedding of the `process_with_tracking` wrapper shared by all five
routes (`main.py:545-557`, `:716-728`, `:778-798`, `:972-992`,
`:1100-1110`): the status writes it performs after the unit of work ends.

A normal return writes `"done"`; a raised `Exception` is caught and writes
`"failed"`; `asyncio.CancelledError` is a `BaseException` in Python ≥ 3.8,
so the `except Exception` clause does not catch it and no terminal status
is written. -/
def process_with_tracking (task_id : String) (u : Outcome Unit) :
    List (String × Status) :=
  match u with
  | .ok _ => [(task_id, .done)]
  | .raise .cancelled => []
  | .raise _ => [(task_id, .failed)]

/-- The status write every accepting route performs before dispatching the
unit of work (`main.py:542-543`, `:713-714`, `:775-776`, `:969-970`,
`:1097-1098`): `TASK_STATUS[task_id] = "processing"`. -/
def accept_operation (mem : List (String × Status)) (task_id : String) :
    List (String × Status) :=
  dictSet mem task_id Status.processing

/-- The full in-memory status-write trace a single task's lifecycle
produces, in program order: the acceptance write followed by the wrapper's
terminal write (if any).  No other code in the repository writes
`TASK_STATUS` for a given task id (`update_task_status` at `main.py:379`
has no caller; `get_task_status_combined` only reads). -/
def taskStatusTrace (task_id : String) (u : Outcome Unit) : List Status :=
  ((task_id, Status.processing) :: process_with_tracking task_id u).map Prod.snd

/-- A run of one accepting route: the registry state at dispatch time
(which is both what the unit of work observes when it starts and what is
current when the handler returns), the synchronous response, the registry
after the wrapper finished, and the unit's durable writes and callbacks. -/
structure RouteRun where
  memAtDispatch : List (String × Status)
  response : String × String
  memFinal : List (String × Status)
  saves : List (String × TaskResultRow)
  callbacks : List CallbackPayload
deriving DecidableEq, Repr

/-- Composition of an accepting route handler with its
`process_with_tracking` wrapper, in source order: write `"processing"`,
dispatch the unit (whose observable behaviour is `unit`), return
`{"status": "processing", "task_id": task_id}`, and let the wrapper write
the terminal status when the unit ends. -/
def run_tracked_route (mem : List (String × Status)) (task_id : String)
    (unit : Outcome Unit × List (String × TaskResultRow) × List CallbackPayload) :
    RouteRun :=
  let memAtDispatch := accept_operation mem task_id
  { memAtDispatch := memAtDispatch
    response := ("processing", task_id)
    memFinal := applyWrites memAtDispatch (process_with_tracking task_id unit.1)
    saves := unit.2.1
    callbacks := unit.2.2 }

/-- Embedding of `save_task_result` (`db_async.py:63-69`):
`INSERT OR REPLACE` into the `task_result` table. -/
def save_task_result (db : List (String × TaskResultRow)) (task_id : String)
    (status : String) (result : String) (processing_time : Nat) :
    List (String × TaskResultRow) :=
  dictSet db task_id ⟨status, result, processing_time⟩

/-- Embedding of `fetch_task_result` (`db_async.py:71-77`): row lookup by
task id, `none` when no row exists. -/
def fetch_task_result (db : List (String × TaskResultRow)) (task_id : String) :
    Option TaskResultRow :=
  List.lookup task_id db

/-- Replay the `save_task_result` calls recorded by a unit of work onto the
durable store. -/
def applySaves (db : List (String × TaskResultRow))
    (saves : List (String × TaskResultRow)) : List (String × TaskResultRow) :=
  saves.foldl (fun acc kv => save_task_result acc kv.1 kv.2.status kv.2.result kv.2.processing_time) db

/-- Response of `GET /task-status/{task_id}`: either HTTP 404 or the body
`{task_id, status, result, processing_time_seconds}` — these four fields and
no others, in particular no `error` field (`main.py:1143-1148`). -/
inductive TaskStatusResponse
  | notFound
  | found (task_id : String) (status : Status) (result : Option String)
      (processing_time_seconds : Option Nat)
deriving DecidableEq, Repr

/-- Embedding of `get_task_status_combined` (`main.py:1132-1148`): read the
in-memory status under the lock; 404 when absent; otherwise fetch the
durable row and surface its `result` and `processing_time` only when the
in-memory status is `"done"`
(`result["result"] if result and status == "done" else None`). -/
def get_task_status_combined (mem : List (String × Status))
    (db : List (String × TaskResultRow)) (task_id : String) :
    TaskStatusResponse :=
  match List.lookup task_id mem with
  | none => .notFound
  | some st =>
    let r := fetch_task_result db task_id
    .found task_id st
      (match r with
       | some row => if st = Status.done then some row.result else none
       | none => none)
      (match r with
       | some row => if st = Status.done then some row.processing_time else none
       | none => none)

/-- One entry of the `BACKGROUND_TASKS` live set during shutdown, described
by its behaviour relative to the shutdown trigger: `completesAt = some c`
means it finishes naturally `c` time-units after the trigger;
`completesAt = none` means it never finishes on its own.
`unwindsIn = some d` means that once cancelled it unwinds `d` time-units
later; `unwindsIn = none` means it never observes the cancellation
(permanently blocked in a non-interruptible call). -/
structure BgTask where
  task_id : String
  completesAt : Option Nat
  unwindsIn : Option Nat
deriving DecidableEq, Repr

/-- First shutdown timeout: `asyncio.wait_for(..., timeout=5.0)`
(`main.py:238-241`). -/
def shutdown_timeout_T1 : Nat := 5

/-- Second shutdown timeout: `asyncio.wait_for(..., timeout=2.0)`
(`main.py:256-259`). -/
def shutdown_timeout_T2 : Nat := 2

/-- Whether a live task finishes naturally within `t` time-units of the
shutdown trigger. -/
def naturallyDoneBy (t : Nat) (u : BgTask) : Bool :=
  match u.completesAt with
  | some c => decide (c ≤ t)
  | none => false

/-- Whether the first `wait_for` returns before its 5-second timeout: every
tracked task completes naturally within T1. -/
def drainSucceeds (ts : List BgTask) : Bool :=
  ts.all (naturallyDoneBy shutdown_timeout_T1)

/-- The tasks still live when T1 elapses — exactly the tasks the sequencer
then cancels (`if not task.done(): task.cancel()`, `main.py:247-250`). -/
def stillLiveAtT1 (ts : List BgTask) : List BgTask :=
  ts.filter (fun u => !naturallyDoneBy shutdown_timeout_T1 u)

/-- Whether a cancelled task unwinds within the second timeout T2. -/
def unwindWithinT2 (u : BgTask) : Bool :=
  match u.unwindsIn with
  | some d => decide (d ≤ shutdown_timeout_T2)
  | none => false

/-- Maximum of a list of durations. -/
def listMax (l : List Nat) : Nat :=
  l.foldl Nat.max 0

/-- Time the first `wait_for` takes when the drain succeeds: the moment the
last task completes. -/
def drainElapsed (ts : List BgTask) : Nat :=
  listMax (ts.map (fun u => u.completesAt.getD 0))

/-- Time the second `wait_for` takes over the cancelled tasks: the last
unwind when all unwind within T2, the full T2 timeout otherwise
(`main.py:255-261`). -/
def forceElapsed (rs : List BgTask) : Nat :=
  if rs.all unwindWithinT2 then listMax (rs.map (fun u => u.unwindsIn.getD 0))
  else shutdown_timeout_T2

/-- Total time the `lifespan` shutdown sequence (`main.py:227-264`) spends
after the trigger: nothing when the live set is empty; the natural drain
time when every task finishes within T1; otherwise T1 plus the forced
cancellation wait. -/
def shutdownElapsed (ts : List BgTask) : Nat :=
  if ts.isEmpty then 0
  else if drainSucceeds ts then drainElapsed ts
  else shutdown_timeout_T1 + forceElapsed (stillLiveAtT1 ts)

/-- The tasks sent a cancellation request: none when the drain succeeded,
every task still live at T1 otherwise. -/
def cancelledAtT1 (ts : List BgTask) : List BgTask :=
  if drainSucceeds ts then [] else stillLiveAtT1 ts

/-- The `BACKGROUND_TASKS` set after the shutdown sequence: on a successful
drain every task removed itself through its done-callback
(`cleanup_task`, `main.py:564-567`); on the timeout path the set is
cleared unconditionally (`BACKGROUND_TASKS.clear()`, `main.py:264`). -/
def liveAfterShutdown (ts : List BgTask) : List BgTask :=
  if drainSucceeds ts then stillLiveAtT1 ts
  else []

/-- The `TASK_STATUS` writes one tracked unit performs during the shutdown
window: a unit that completes naturally runs its wrapper to the end and
writes the terminal status for its unit result; a unit that is cancelled
unwinds via `CancelledError`, which the wrapper's `except Exception` does
not catch, so no terminal status is written; an abandoned unit never
completes and writes nothing. -/
def statusWritesDuringShutdown (u : BgTask) (res : Outcome Unit) :
    List (String × Status) :=
  if naturallyDoneBy shutdown_timeout_T1 u then process_with_tracking u.task_id res
  else []

/-- Embedding of the send loop of `broadcast_to_websockets`
(`main.py:354-359`): iterate over a copy of the connection set, attempt the
send to each, collect successful deliveries and failed connections.
`sendOk w = true` means `websocket.send_text` returns normally for `w`;
`false` means it raises (the exception is caught and the connection is
recorded in `disconnected`). -/
def broadcastLoop (sendOk : Nat → Bool) : List Nat → List Nat × List Nat
  | [] => ([], [])
  | w :: ws =>
    let r := broadcastLoop sendOk ws
    if sendOk w then (w :: r.1, r.2) else (r.1, w :: r.2)

/-- Embedding of `broadcast_to_websockets` (`main.py:346-364`): returns the
list of subscribers the event was delivered to and the connection registry
after the broadcast (every connection whose send failed is discarded under
the lock after the loop). -/
def broadcast_to_websockets (conns : List Nat) (sendOk : Nat → Bool) :
    List Nat × List Nat :=
  let r := broadcastLoop sendOk conns
  (r.1, conns.filter (fun w => !(r.2.contains w)))

/-- Embedding of `notify_callback` (`utils_ws.py:6-12`).  `post` is the
outcome of the single `httpx` POST attempt.  The body is one `try` around
one send with a bare `except` that logs: the function always returns
normally, performs exactly one delivery attempt, writes exactly one log
line, and never touches the task registry — `mem` is threaded through
unchanged to record that frame (the source body has no access to
`TASK_STATUS`).  Result: (log lines, registry after, attempt count). -/
def notify_callback (post : Outcome Unit) (mem : List (String × Status)) :
    List String × List (String × Status) × Nat :=
  match post with
  | .ok _ => (["Callback sent"], mem, 1)
  | .raise e => (["Failed to call callback URL: " ++ excErrorMsg e], mem, 1)

/-! Helper lemmas shared by the claim theorems. -/

theorem foldl_max_le (l : List Nat) (a b : Nat) (ha : a ≤ b)
    (h : ∀ x ∈ l, x ≤ b) : l.foldl Nat.max a ≤ b := by
  induction l generalizing a with
  | nil => simpa using ha
  | cons x xs ih =>
    simp only [List.foldl_cons]
    exact ih (Nat.max a x) (Nat.max_le.mpr ⟨ha, h x (List.mem_cons_self x xs)⟩)
      (fun y hy => h y (List.mem_cons_of_mem x hy))

theorem listMax_le (l : List Nat) (b : Nat) (h : ∀ x ∈ l, x ≤ b) :
    listMax l ≤ b :=
  foldl_max_le l 0 b (Nat.zero_le b) h

theorem drainElapsed_le (ts : List Study4Me.BgTask)
    (h : drainSucceeds ts = true) :
    drainElapsed ts ≤ shutdown_timeout_T1 := by
  apply listMax_le
  intro x hx
  rcases List.mem_map.mp hx with ⟨u, hu, rfl⟩
  have hall := (List.all_eq_true.mp h) u hu
  unfold naturallyDoneBy at hall
  cases hc : u.completesAt with
  | none => rw [hc] at hall; simp at hall
  | some c =>
    rw [hc] at hall
    simp only [hc, Option.getD_some]
    exact of_decide_eq_true hall

theorem forceElapsed_le (rs : List Study4Me.BgTask) :
    forceElapsed rs ≤ shutdown_timeout_T2 := by
  unfold forceElapsed
  by_cases hall : rs.all unwindWithinT2 = true
  · rw [if_pos hall]
    apply listMax_le
    intro x hx
    rcases List.mem_map.mp hx with ⟨u, hu, rfl⟩
    have h := (List.all_eq_true.mp hall) u hu
    unfold unwindWithinT2 at h
    cases hd : u.unwindsIn with
    | none => rw [hd] at h; simp at h
    | some d =>
      rw [hd] at h
      simp only [hd, Option.getD_some]
      exact of_decide_eq_true h
  · rw [if_neg hall]

theorem broadcastLoop_fst (sendOk : Nat → Bool) (l : List Nat) :
    (broadcastLoop sendOk l).1 = l.filter sendOk := by
  induction l with
  | nil => rfl
  | cons w ws ih =>
    cases h : sendOk w with
    | true => simp [broadcastLoop, List.filter_cons, h, ih]
    | false => simp [broadcastLoop, List.filter_cons, h, ih]

theorem broadcastLoop_snd (sendOk : Nat → Bool) (l : List Nat) :
    (broadcastLoop sendOk l).2 = l.filter (fun w => !sendOk w) := by
  induction l with
  | nil => rfl
  | cons w ws ih =>
    cases h : sendOk w with
    | true => simp [broadcastLoop, List.filter_cons, h, ih]
    | false => simp [broadcastLoop, List.filter_cons, h, ih]

theorem process_uploaded_documents_no_saves (shutdown : Bool)
    (callback_url : Option String) (files : List (String × Outcome Nat)) :
    (process_uploaded_documents shutdown callback_url files).2.1 = [] := by
  induction files with
  | nil => rfl
  | cons f rest ih =>
    obtain ⟨fn, r⟩ := f
    cases shutdown with
    | true => rfl
    | false =>
      match r with
      | .ok t => simpa [process_uploaded_documents] using ih
      | .raise .cancelled => rfl
      | .raise (.authError m) => simpa [process_uploaded_documents] using ih
      | .raise (.rateLimit m) => simpa [process_uploaded_documents] using ih
      | .raise (.apiError m) => simpa [process_uploaded_documents] using ih
      | .raise (.unexpected m) => simpa [process_uploaded_documents] using ih

theorem lookup_dictSet_self (m : List (String × α)) (k : String) (v : α) :
    List.lookup k (dictSet m k v) = some v := by
  simp [dictSet, List.lookup]

/-! Claim theorems. -/

/-- C1: For every task, the sequence of status values stored in the task
registry is an initial segment of `processing, {done|failed}`: the task is
created with status `"processing"`, transitions at most once to a terminal
status (`"done"` when its unit of work returns, `"failed"` when it raises a
non-cancellation exception, no terminal write at all on cancellation), and
no operation ever writes a status after the terminal value — the trace
covers every `TASK_STATUS` write the repository performs for the task id. -/
theorem task_status_single_terminal_transition (task_id : String)
    (u : Outcome Unit) :
    taskStatusTrace task_id u = [Status.processing]
    ∨ taskStatusTrace task_id u = [Status.processing, Status.done]
    ∨ taskStatusTrace task_id u = [Status.processing, Status.failed] := by
  cases u with
  | ok a => exact Or.inr (Or.inl rfl)
  | raise e =>
    cases e with
    | cancelled => exact Or.inl rfl
    | authError m => exact Or.inr (Or.inr rfl)
    | rateLimit m => exact Or.inr (Or.inr rfl)
    | apiError m => exact Or.inr (Or.inr rfl)
    | unexpected m => exact Or.inr (Or.inr rfl)

/-- C2: For every accepted operation, the registry state at dispatch time —
the state the unit of work observes when it starts and the state current
when the handler returns — maps the returned task id to `"processing"`,
the response body is `{"status": "processing", "task_id": task_id}`, and
the status endpoint at that moment reports `processing` with no result and
no processing time (the fresh uuid has no durable row). -/
theorem accepted_task_visible_before_dispatch (mem : List (String × Status))
    (db : List (String × TaskResultRow)) (task_id : String)
    (unit : Outcome Unit × List (String × TaskResultRow) × List CallbackPayload)
    (hfresh : fetch_task_result db task_id = none) :
    List.lookup task_id (run_tracked_route mem task_id unit).memAtDispatch
        = some Status.processing
    ∧ (run_tracked_route mem task_id unit).response = ("processing", task_id)
    ∧ get_task_status_combined (run_tracked_route mem task_id unit).memAtDispatch
        db task_id
        = .found task_id Status.processing none none := by
  have hl : List.lookup task_id (run_tracked_route mem task_id unit).memAtDispatch
      = some Status.processing := lookup_dictSet_self mem task_id Status.processing
  refine ⟨hl, rfl, ?_⟩
  simp [get_task_status_combined, hl, hfresh]

/-- Witness for C2 at a concrete registry, store and task id. -/
theorem accepted_task_visible_before_dispatch_witness :
    List.lookup "t1" (run_tracked_route [] "t1" (.ok (), [], [])).memAtDispatch
      = some Status.processing :=
  (accepted_task_visible_before_dispatch [] [] "t1" (.ok (), [], []) rfl).1

/-- C5: `GET /task-status/{task_id}` returns 404 exactly when the task id
is absent from the in-memory task registry; when present the response is
the object with fields `task_id`, `status`, `result` and
`processing_time_seconds` (the four fields of `TaskStatusResponse.found`;
the response shape has no other field). -/
theorem task_status_endpoint_404_iff_absent (mem : List (String × Status))
    (db : List (String × TaskResultRow)) (task_id : String) :
    (get_task_status_combined mem db task_id = .notFound
      ↔ List.lookup task_id mem = none)
    ∧ ∀ st, List.lookup task_id mem = some st →
        ∃ r p, get_task_status_combined mem db task_id = .found task_id st r p := by
  constructor
  · constructor
    · intro h
      cases hm : List.lookup task_id mem with
      | none => rfl
      | some st =>
        unfold get_task_status_combined at h
        rw [hm] at h
        cases h
    · intro h
      unfold get_task_status_combined
      rw [h]
  · intro st h
    unfold get_task_status_combined
    rw [h]
    exact ⟨_, _, rfl⟩

/-- Witness for C5: a present id gets the four-field body, an absent id
gets 404. -/
theorem task_status_endpoint_404_iff_absent_witness :
    get_task_status_combined [("t1", Status.processing)] [] "t2" = .notFound :=
  (task_status_endpoint_404_iff_absent [("t1", Status.processing)] [] "t2").1.mpr rfl

/-- C9: A webhook delivery failure is swallowed: `notify_callback` always
returns normally (its result type carries no exception), performs exactly
one delivery attempt (no retry), writes exactly one log line, and leaves
the task registry — and hence any terminal status stored there —
unchanged. -/
theorem notify_callback_swallows_failure (post : Outcome Unit)
    (mem : List (String × Status)) :
    (notify_callback post mem).2.1 = mem
    ∧ (notify_callback post mem).2.2 = 1
    ∧ (notify_callback post mem).1.length = 1 := by
  cases post with
  | ok a => exact ⟨rfl, rfl, rfl⟩
  | raise e => exact ⟨rfl, rfl, rfl⟩

/-- C10: When the in-memory status of a task is `"failed"`, the
`/task-status` response carries `result = null` and
`processing_time_seconds = null` — and the response shape has no error
field at all — even when a durable row for the task exists holding an
error description and a processing time: the endpoint surfaces the durable
row only when the status is `"done"`. -/
theorem failed_status_hides_durable_record (mem : List (String × Status))
    (db : List (String × TaskResultRow)) (task_id : String)
    (row : TaskResultRow)
    (hs : List.lookup task_id mem = some Status.failed)
    (hd : fetch_task_result db task_id = some row) :
    get_task_status_combined mem db task_id
      = .found task_id Status.failed none none := by
  simp [get_task_status_combined, hs, hd]

/-- Witness for C10: a failed task whose durable row holds an error
description and a processing time is reported with null result and null
time. -/
theorem failed_status_hides_durable_record_witness :
    get_task_status_combined [("t1", Status.failed)]
      [("t1", ⟨"failed", "OpenAI authentication failed: bad key", 4⟩)] "t1"
      = .found "t1" Status.failed none none :=
  failed_status_hides_durable_record [("t1", Status.failed)]
    [("t1", ⟨"failed", "OpenAI authentication failed: bad key", 4⟩)] "t1"
    ⟨"failed", "OpenAI authentication failed: bad key", 4⟩ rfl rfl

/-- C3 counterexample: a document-upload unit of work that hits a typed
collaborator failure (`AuthenticationError`) catches it inside the per-file
loop and returns normally, so `process_with_tracking` marks the task
`"done"` — not `"failed"` as the claim requires. -/
theorem upload_typed_failure_marks_done :
    (process_uploaded_documents false (some "http://cb.example/hook")
        [("notes.pdf", Outcome.raise (Exc.authError "invalid api key"))]).1
      = Outcome.ok ()
    ∧ taskStatusTrace "t1"
        (process_uploaded_documents false (some "http://cb.example/hook")
          [("notes.pdf", Outcome.raise (Exc.authError "invalid api key"))]).1
        = [Status.processing, Status.done]
    ∧ taskStatusTrace "t1"
        (process_uploaded_documents false (some "http://cb.example/hook")
          [("notes.pdf", Outcome.raise (Exc.authError "invalid api key"))]).1
        ≠ [Status.processing, Status.failed] := by
  refine ⟨rfl, rfl, ?_⟩
  decide

/-- C3 amended: a typed collaborator failure never escapes the unit
boundary and always produces a callback carrying a descriptive error
string and an error-kind tag, but only the async-query (and YouTube) units
convert it into a terminal `"failed"` Task with a durable `"failed"` row;
in the document-upload (and webpage/image) units the failure is caught
inside the unit, which then returns normally, so the Task ends `"done"`. -/
theorem typed_failure_unit_boundary (e : Exc) (task_id cb fn : String)
    (tp : Topic) (t : Nat) (htyped : e.isTyped = true) :
    (process_with_tracking task_id
        (process_query_background false task_id (some cb) (some "tid")
          (some tp) true true (.raise e) t).1
        = [(task_id, Status.failed)]
      ∧ (process_query_background false task_id (some cb) (some "tid")
          (some tp) true true (.raise e) t).2.1
        = [(task_id, ⟨"failed", excErrorMsg e, t⟩)]
      ∧ (process_query_background false task_id (some cb) (some "tid")
          (some tp) true true (.raise e) t).2.2
        = [⟨"failed", some (excErrorMsg e), some (excErrorType e), some t⟩])
    ∧ ((process_uploaded_documents false (some cb) [(fn, .raise e)]).1
        = Outcome.ok ()
      ∧ process_with_tracking task_id
          (process_uploaded_documents false (some cb) [(fn, .raise e)]).1
        = [(task_id, Status.done)]
      ∧ (process_uploaded_documents false (some cb) [(fn, .raise e)]).2.2
        = [errorPayload e]) := by
  cases e with
  | authError m =>
    refine ⟨⟨?_, ?_, ?_⟩, rfl, rfl, rfl⟩ <;>
      simp [process_query_background, process_with_tracking, optCb]
  | rateLimit m =>
    refine ⟨⟨?_, ?_, ?_⟩, rfl, rfl, rfl⟩ <;>
      simp [process_query_background, process_with_tracking, optCb]
  | apiError m =>
    refine ⟨⟨?_, ?_, ?_⟩, rfl, rfl, rfl⟩ <;>
      simp [process_query_background, process_with_tracking, optCb]
  | unexpected m => simp [Exc.isTyped] at htyped
  | cancelled => simp [Exc.isTyped] at htyped

/-- Witness for C3's amended theorem at a concrete typed failure. -/
theorem typed_failure_unit_boundary_witness :
    process_with_tracking "t1"
        (process_query_background false "t1" (some "http://cb") (some "tid")
          (some ⟨"Topic", true⟩) true true
          (.raise (Exc.authError "invalid api key")) 3).1
      = [("t1", Status.failed)] :=
  (typed_failure_unit_boundary (Exc.authError "invalid api key") "t1"
    "http://cb" "notes.pdf" ⟨"Topic", true⟩ 3 rfl).1.1

/-- C6 counterexample: after a restart the in-memory map is empty, so the
status query for a task whose terminal state was durably stored returns
404 — not the durably stored value. -/
theorem restart_query_returns_404_counterexample :
    get_task_status_combined []
        [("t1", ⟨"done", "stored answer", 3⟩)] "t1" = .notFound
    ∧ get_task_status_combined []
        [("t1", ⟨"done", "stored answer", 3⟩)] "t1"
      ≠ .found "t1" Status.done (some "stored answer") (some 3) := by
  exact ⟨rfl, by decide⟩

/-- C6 amended: with an empty in-memory map (the post-restart state) the
status endpoint returns 404 for every task id, even when a durable row
with the task's terminal state exists; the durably stored result and
processing time are surfaced — accurately — only while the in-memory map
still holds the task with status `"done"`. -/
theorem restart_returns_404_memory_gates_durable
    (db : List (String × TaskResultRow)) (task_id : String)
    (mem : List (String × Status)) (row : TaskResultRow)
    (hmem : List.lookup task_id mem = some Status.done)
    (hdb : fetch_task_result db task_id = some row) :
    get_task_status_combined [] db task_id = .notFound
    ∧ get_task_status_combined mem db task_id
      = .found task_id Status.done (some row.result) (some row.processing_time) := by
  refine ⟨rfl, ?_⟩
  simp [get_task_status_combined, hmem, hdb]

/-- Witness for C6's amended theorem at a concrete store and registry. -/
theorem restart_returns_404_memory_gates_durable_witness :
    get_task_status_combined [] [("t1", ⟨"done", "stored answer", 3⟩)] "t1"
      = .notFound :=
  (restart_returns_404_memory_gates_durable
    [("t1", ⟨"done", "stored answer", 3⟩)] "t1" [("t1", Status.done)]
    ⟨"done", "stored answer", 3⟩ rfl rfl).1

/-- C7 counterexample: a document-upload task that completes successfully
reaches terminal state `"done"` in the in-memory registry while its unit
of work performs no `save_task_result` call at all — the durable store
never records the terminal status. -/
theorem upload_done_without_durable_write :
    taskStatusTrace "t1"
        (process_uploaded_documents false none [("notes.pdf", Outcome.ok 2)]).1
      = [Status.processing, Status.done]
    ∧ (process_uploaded_documents false none [("notes.pdf", Outcome.ok 2)]).2.1
      = ([] : List (String × TaskResultRow)) := by
  exact ⟨rfl, rfl⟩

/-- C7 amended: only the async-query and YouTube units write task results
durably.  For those units, normal completion stores a `"done"` row with
the result payload and processing time (matching the in-memory terminal
status) and a raised error stores a `"failed"` row with the error string
(again matching), but an async-query early-validation failure stores a
`"failed"` row while the in-memory registry is marked `"done"`.  The
document-upload, webpage and image units perform no durable task-result
write, so their terminal statuses exist only in memory. -/
theorem durable_writes_by_unit (task_id : String) (cb : Option String)
    (ans txt : String) (t : Nat) (e : Exc) (tp : Topic)
    (files : List (String × Outcome Nat)) (body : Outcome Nat)
    (hne : e ≠ Exc.cancelled) :
    (process_with_tracking task_id
        (process_query_background false task_id cb (some "tid") (some tp)
          true true (.ok ans) t).1
        = [(task_id, Status.done)]
      ∧ (process_query_background false task_id cb (some "tid") (some tp)
          true true (.ok ans) t).2.1
        = [(task_id, ⟨"done", enhanced_result_json ans, t⟩)]
      ∧ fetch_task_result
          (applySaves []
            (process_query_background false task_id cb (some "tid") (some tp)
              true true (.ok ans) t).2.1) task_id
        = some ⟨"done", enhanced_result_json ans, t⟩)
    ∧ (process_with_tracking task_id
        (process_query_background false task_id cb (some "tid") (some tp)
          true true (.raise e) t).1
        = [(task_id, Status.failed)]
      ∧ (process_query_background false task_id cb (some "tid") (some tp)
          true true (.raise e) t).2.1
        = [(task_id, ⟨"failed", excErrorMsg e, t⟩)])
    ∧ (process_with_tracking task_id
        (process_youtube_background false task_id cb (.ok txt) (.ok ()) t).1
        = [(task_id, Status.done)]
      ∧ (process_youtube_background false task_id cb (.ok txt) (.ok ()) t).2.1
        = [(task_id, ⟨"done", youtube_result_json txt, t⟩)])
    ∧ (process_uploaded_documents false cb files).2.1 = []
    ∧ (process_webpage_background false cb body).2.1 = []
    ∧ (process_image_background false cb body).2.1 = []
    ∧ (process_with_tracking task_id
        (process_query_background false task_id cb (some "tid") none
          true true (.ok ans) t).1
        = [(task_id, Status.done)]
      ∧ (process_query_background false task_id cb (some "tid") none
          true true (.ok ans) t).2.1
        = [(task_id, ⟨"failed", "Study topic with ID 'tid' not found", 0⟩)]) := by
  refine ⟨⟨?_, ?_, ?_⟩, ⟨?_, ?_⟩, ⟨rfl, rfl⟩,
    process_uploaded_documents_no_saves false cb files, ?_, ?_, rfl, rfl⟩
  · simp [process_query_background, process_with_tracking]
  · simp [process_query_background]
  · simp [process_query_background, applySaves, save_task_result,
      fetch_task_result, lookup_dictSet_self]
  · cases e with
    | cancelled => exact absurd rfl hne
    | authError m => simp [process_query_background, process_with_tracking]
    | rateLimit m => simp [process_query_background, process_with_tracking]
    | apiError m => simp [process_query_background, process_with_tracking]
    | unexpected m => simp [process_query_background, process_with_tracking]
  · cases e with
    | cancelled => exact absurd rfl hne
    | authError m => simp [process_query_background]
    | rateLimit m => simp [process_query_background]
    | apiError m => simp [process_query_background]
    | unexpected m => simp [process_query_background]
  · cases body with
    | ok t' => rfl
    | raise e' => cases e' <;> rfl
  · cases body with
    | ok t' => rfl
    | raise e' => cases e' <;> rfl

/-- Witness for C7's amended theorem at concrete inputs. -/
theorem durable_writes_by_unit_witness :
    (process_query_background false "t1" none (some "tid")
        (some ⟨"Topic", true⟩) true true (.ok "answer") 3).2.1
      = [("t1", ⟨"done", enhanced_result_json "answer", 3⟩)] :=
  (durable_writes_by_unit "t1" none "answer" "transcript" 3
    (Exc.apiError "boom") ⟨"Topic", true⟩ [] (.ok 2)
    (by decide)).1.2.1

/-- C8: When a broadcast reaches a subscriber whose send fails, every
subscriber whose send succeeds still receives the event, the failing
subscriber receives nothing, the failing subscriber is removed from the
connection registry after the broadcast, and every successfully-sent
subscriber is kept — the per-subscriber failure is caught inside the loop
(the total return type of `broadcast_to_websockets` records that nothing
propagates) and only failing connections are discarded. -/
theorem broadcast_failure_isolated (conns : List Nat) (w : Nat)
    (sendOk : Nat → Bool) (hw : w ∈ conns) (hfail : sendOk w = false) :
    (∀ v ∈ conns, sendOk v = true →
      v ∈ (broadcast_to_websockets conns sendOk).1)
    ∧ w ∉ (broadcast_to_websockets conns sendOk).1
    ∧ w ∉ (broadcast_to_websockets conns sendOk).2
    ∧ (∀ v ∈ conns, sendOk v = true →
      v ∈ (broadcast_to_websockets conns sendOk).2) := by
  unfold broadcast_to_websockets
  simp only [broadcastLoop_fst, broadcastLoop_snd]
  refine ⟨?_, ?_, ?_, ?_⟩
  · intro v hv hs
    exact List.mem_filter.mpr ⟨hv, hs⟩
  · intro hmem
    have hs := (List.mem_filter.mp hmem).2
    rw [hfail] at hs
    cases hs
  · intro hmem
    have hkeep := (List.mem_filter.mp hmem).2
    have hdisc : w ∈ conns.filter (fun x => !sendOk x) :=
      List.mem_filter.mpr ⟨hw, by rw [hfail]; rfl⟩
    have hc : (conns.filter (fun x => !sendOk x)).contains w = true :=
      List.elem_iff.mpr hdisc
    rw [hc] at hkeep
    cases hkeep
  · intro v hv hs
    refine List.mem_filter.mpr ⟨hv, ?_⟩
    cases hc : (conns.filter (fun x => !sendOk x)).contains v with
    | false => rfl
    | true =>
      have hv2 := (List.mem_filter.mp (List.elem_iff.mp hc)).2
      rw [hs] at hv2
      cases hv2

/-- Witness for C8 with three subscribers of which subscriber 2 fails:
subscriber 1 still receives the event and subscriber 2 is removed. -/
theorem broadcast_failure_isolated_witness :
    1 ∈ (broadcast_to_websockets [1, 2, 3] (fun v => !(v == 2))).1
    ∧ 2 ∉ (broadcast_to_websockets [1, 2, 3] (fun v => !(v == 2))).2 := by
  have h := broadcast_failure_isolated [1, 2, 3] 2 (fun v => !(v == 2))
    (by decide) (by decide)
  exact ⟨h.1 1 (by decide) (by decide), h.2.2.1⟩

/-- C4: The `lifespan` shutdown is a linear two-stage sequence.  Whatever
the live set contains, the elapsed shutdown time is bounded by T1 + T2
(5 + 2 time-units); when the cooperative drain times out, every unit still
live at T1 is sent a cancellation request; after the second stage the live
set is empty unconditionally (`BACKGROUND_TASKS.clear()`); and a
permanently blocked unit — one that never completes — performs no terminal
status write, so its Task Registry entry is left at `"processing"`. -/
theorem shutdown_two_stage_bounded (ts : List BgTask) (u : BgTask)
    (res : Outcome Unit) (mem : List (String × Status))
    (hblocked : u.completesAt = none)
    (hmem : List.lookup u.task_id mem = some Status.processing) :
    shutdownElapsed ts ≤ shutdown_timeout_T1 + shutdown_timeout_T2
    ∧ liveAfterShutdown ts = []
    ∧ (drainSucceeds ts = false →
        ∀ v ∈ stillLiveAtT1 ts, v ∈ cancelledAtT1 ts)
    ∧ List.lookup u.task_id
        (applyWrites mem (statusWritesDuringShutdown u res))
      = some Status.processing := by
  refine ⟨?_, ?_, ?_, ?_⟩
  · unfold shutdownElapsed
    by_cases he : ts.isEmpty = true
    · rw [if_pos he]
      exact Nat.zero_le _
    · rw [if_neg he]
      by_cases hd : drainSucceeds ts = true
      · rw [if_pos hd]
        exact Nat.le_trans (drainElapsed_le ts hd) (Nat.le_add_right _ _)
      · rw [if_neg hd]
        exact Nat.add_le_add_left (forceElapsed_le (stillLiveAtT1 ts)) _
  · unfold liveAfterShutdown
    by_cases hd : drainSucceeds ts = true
    · rw [if_pos hd]
      unfold stillLiveAtT1
      refine List.filter_eq_nil_iff.mpr ?_
      intro a ha
      have := (List.all_eq_true.mp hd) a ha
      simp [this]
    · rw [if_neg hd]
  · intro hd v hv
    unfold cancelledAtT1
    rw [if_neg (by rw [hd]; exact Bool.false_ne_true)]
    exact hv
  · have hnat : naturallyDoneBy shutdown_timeout_T1 u = false := by
      unfold naturallyDoneBy
      rw [hblocked]
    unfold statusWritesDuringShutdown
    rw [hnat]
    simpa [applyWrites] using hmem

/-- Witness for C4 with a single permanently blocked live unit: shutdown
still terminates within T1 + T2, the live set ends empty, and the blocked
unit's registry entry stays at `"processing"`. -/
theorem shutdown_two_stage_bounded_witness :
    shutdownElapsed [⟨"t1", none, none⟩] ≤
      shutdown_timeout_T1 + shutdown_timeout_T2
    ∧ liveAfterShutdown [⟨"t1", none, none⟩] = []
    ∧ List.lookup "t1"
        (applyWrites [("t1", Status.processing)]
          (statusWritesDuringShutdown ⟨"t1", none, none⟩ (Outcome.ok ())))
      = some Status.processing := by
  have h := shutdown_two_stage_bounded [⟨"t1", none, none⟩]
    ⟨"t1", none, none⟩ (Outcome.ok ()) [("t1", Status.processing)] rfl rfl
  exact ⟨h.1, h.2.1, h.2.2.2⟩

end Study4Me
